import Mathlib

/-!
# UTXOchat: message-admission and peer-gossip subsystem, shallowly embedded

Each definition below translates one Go function or type of the UTXOchat
repository.  Machine integers are modelled as `Nat` with explicit `% 2^w`
where a Go conversion truncates; byte slices are `List Nat`; fixed-size Go
arrays (`[36]byte`, `[64]byte`, `[32]byte`) are length-indexed subtypes of
`List Nat`; fallible Go functions return `Except`; external collaborator
calls (bitcoin RPC, btcec cryptography, context cancellation) are abstracted
as explicit outcome parameters, since their bodies live outside this
repository.
-/

namespace UtxoChat

/-! ## Message codec (message/message.go) -/

/-- `OutpointSize`: size of an outpoint (32-byte txid + 4-byte vout). -/
def OutpointSize : Nat := 36

/-- `SignatureSize`: size of a signature. -/
def SignatureSize : Nat := 64

/-- `LengthSize`: size of the length field. -/
def LengthSize : Nat := 2

/-- `HeaderSize = OutpointSize + SignatureSize + LengthSize` (= 102). -/
def HeaderSize : Nat := OutpointSize + SignatureSize + LengthSize

/-- `MaxPayloadSize`: maximum size of the payload. -/
def MaxPayloadSize : Nat := 65434

/-- `MaxMessageSize`: maximum size of a complete message. -/
def MaxMessageSize : Nat := HeaderSize + MaxPayloadSize

/-- A fixed-length Go byte array `[n]byte`, as a length-indexed list. -/
abbrev Bytes (n : Nat) := { l : List Nat // l.length = n }

/-- `message.Outpoint` is `[36]byte` (txid ++ little-endian vout). -/
abbrev Outpoint := Bytes OutpointSize

/-- A signature is `[64]byte`. -/
abbrev Signature := Bytes SignatureSize

/-- `message.Message`: the unit of admission and gossip.  `length` is the
`uint16` payload-length field, kept as a separate field exactly as in the
Go struct (the invariant `length = payload.length` is *not* type-enforced). -/
structure Message where
  outpoint : Outpoint
  signature : Signature
  length : Nat
  payload : List Nat
deriving DecidableEq

/-- `binary.LittleEndian.PutUint16`: the two bytes written for value `v`. -/
def putUint16LE (v : Nat) : List Nat := [v % 256, v / 256 % 256]

/-- `binary.LittleEndian.Uint16`: decode two little-endian bytes. -/
def uint16LE (b0 b1 : Nat) : Nat := b0 + 256 * b1

/-- `binary.LittleEndian.PutUint32`: the four bytes written for value `v`. -/
def putUint32LE (v : Nat) : List Nat :=
  [v % 256, v / 256 % 256, v / 65536 % 256, v / 16777216 % 256]

/-- The decode errors of `message/message.go`.  `ErrInvalidHeader` and
`ErrMessageTooLarge` are the two sentinel errors; `dataTooShort` is the
distinct `fmt.Errorf("message data too short: expected %d bytes, got %d")`
error returned when the buffer is shorter than header + declared length. -/
inductive DecodeError where
  | invalidHeader
  | messageTooLarge
  | dataTooShort (expected : Nat) (got : Nat)
deriving DecidableEq

/-- `message.NewMessage`: rejects payloads longer than `MaxPayloadSize` with
`ErrMessageTooLarge`; otherwise stores `uint16(len(payload))` (the Go
conversion truncates mod 2^16) in the length field. -/
def NewMessage (outpoint : Outpoint) (signature : Signature)
    (payload : List Nat) : Except DecodeError Message :=
  if payload.length > MaxPayloadSize then .error .messageTooLarge
  else .ok ⟨outpoint, signature, payload.length % 65536, payload⟩

/-- `Message.Serialize`: outpoint (36 B) ++ signature (64 B) ++
little-endian length (2 B) ++ payload. -/
def Serialize (m : Message) : List Nat :=
  m.outpoint.val ++ m.signature.val ++ putUint16LE m.length ++ m.payload

/-- The declared payload length read off bytes 100..101 of a buffer
(`binary.LittleEndian.Uint16(data[100:102])`). -/
def declaredLength (data : List Nat) : Nat :=
  uint16LE (data.getD 100 0) (data.getD 101 0)

/-- `message.Deserialize`: header-size check, length-field read, oversize
check, buffer-length check, then field extraction. -/
def Deserialize (data : List Nat) : Except DecodeError Message :=
  if h : data.length < HeaderSize then .error .invalidHeader
  else
    let length := declaredLength data
    if length > MaxPayloadSize then .error .messageTooLarge
    else if data.length < HeaderSize + length then
      .error (.dataTooShort (HeaderSize + length) data.length)
    else
      .ok { outpoint := ⟨data.take 36, by
              simp only [List.length_take]
              simp only [HeaderSize, OutpointSize, SignatureSize, LengthSize] at h ⊢
              omega⟩
            signature := ⟨(data.drop 36).take 64, by
              simp only [List.length_take, List.length_drop]
              simp only [HeaderSize, OutpointSize, SignatureSize, LengthSize] at h ⊢
              omega⟩
            length := length
            payload := (data.drop 102).take length }

/-! ## Outpoint store (database/, MemoryDB) -/

/-- The key set of `MemoryDB.outpoints` (`map[message.Outpoint]struct{}`),
as a list with set semantics. -/
abbrev Store := List Outpoint

/-- The errors surfaced by `MemoryDB` operations: only a cancelled context
(`ctx.Err()`) makes them fail. -/
inductive DBError where
  | contextCanceled
deriving DecidableEq

/-- `MemoryDB.HasOutpoint`: fails if the context is done, otherwise reports
map membership (under `mu.RLock`). -/
def hasOutpoint (ctxDone : Bool) (st : Store) (op : Outpoint) :
    Except DBError Bool :=
  if ctxDone then .error .contextCanceled
  else .ok (decide (op ∈ st))

/-- `MemoryDB.AddOutpoint`: fails if the context is done, otherwise inserts
the key into the map (under `mu.Lock`; idempotent on the key set). -/
def addOutpoint (ctxDone : Bool) (st : Store) (op : Outpoint) :
    Except DBError Store :=
  if ctxDone then .error .contextCanceled
  else .ok (if op ∈ st then st else op :: st)

/-! ## Admission validator (message/validator.go)

`message.Validator` is the validator the node actually constructs
(`main.go`: `validator := message.NewValidator(bitcoinClient, db)`) and the
one held by `network.Manager`.  Its external calls are abstracted as an
outcome environment. -/

/-- `btcjson.GetTxOutResult`, reduced to the fields the validator reads. -/
structure TxOut where
  value : Int
  scriptPubKeyHex : String
deriving DecidableEq

/-- Outcome of `v.client.GetTxOut(hash, vout, false)`. -/
inductive TxOutLookup where
  | rpcError                -- the RPC call itself returned an error
  | spentOrMissing          -- the call returned `nil` (absent or spent)
  | unspent (t : TxOut)     -- the call returned a live txout
deriving DecidableEq

/-- Failure modes of `message.Validator.VerifySignature` (all produced by
the external btcec/ecdsa library). -/
inductive SignatureError where
  | invalidPubKey           -- btcec.ParsePubKey failed
  | invalidSigEncoding      -- ecdsa.ParseSignature failed
  | badSignature            -- sig.Verify returned false
deriving DecidableEq

/-- Outcomes of the external calls a single `ValidateMessage` run makes:
context state, txid parse, UTXO lookup, and signature verification. -/
structure CollabEnv where
  ctxDone : Bool
  parseTxidOk : Bool                -- chainhash.NewHashFromStr success
  getTxOut : TxOutLookup
  sigResult : Option SignatureError -- none = signature verified
deriving DecidableEq

/-- Failure modes of `message.Validator.VerifyUTXOOwnership`. -/
inductive OwnershipError where
  | invalidTxid
  | getTxOutFailed
  | utxoNotFound
deriving DecidableEq

/-- `message.Validator.VerifyUTXOOwnership`: parse the txid, query the
bitcoin node, reject if the RPC fails or the UTXO is absent/spent
(`txOut == nil`). -/
def verifyUTXOOwnership (env : CollabEnv) : Except OwnershipError Unit :=
  if !env.parseTxidOk then .error .invalidTxid
  else
    match env.getTxOut with
    | .rpcError => .error .getTxOutFailed
    | .spentOrMissing => .error .utxoNotFound
    | .unspent _ => .ok ()

/-- `message.Validator.VerifySignature`: parse the claimed public key,
parse the signature, double-SHA256 the payload and verify; every step is a
call into the external btcec library, so the run's outcome is taken from
the environment. -/
def verifySignature (env : CollabEnv) : Except SignatureError Unit :=
  match env.sigResult with
  | some e => .error e
  | none => .ok ()

/-- The rejection reasons of `message.Validator.ValidateMessage`, one per
`fmt.Errorf` site. -/
inductive ValidationError where
  | databaseError (e : DBError)                    -- db.HasOutpoint failed
  | alreadySeen                                    -- "outpoint already seen"
  | utxoVerificationFailed (e : OwnershipError)
  | signatureVerificationFailed (e : SignatureError)
  | addOutpointFailed (e : DBError)                -- db.AddOutpoint failed
deriving DecidableEq

/-- `message.Validator.ValidateMessage`: replay check, ownership check,
signature check, then admission; returns the outcome together with the
resulting store. -/
def validateMessage (env : CollabEnv) (st : Store) (msg : Message) :
    Except ValidationError Unit × Store :=
  match hasOutpoint env.ctxDone st msg.outpoint with
  | .error e => (.error (.databaseError e), st)
  | .ok true => (.error .alreadySeen, st)
  | .ok false =>
    match verifyUTXOOwnership env with
    | .error e => (.error (.utxoVerificationFailed e), st)
    | .ok _ =>
      match verifySignature env with
      | .error e => (.error (.signatureVerificationFailed e), st)
      | .ok _ =>
        match addOutpoint env.ctxDone st msg.outpoint with
        | .error e => (.error (.addOutpointFailed e), st)
        | .ok st2 => (.ok (), st2)

/-! ## Concurrent admission, at the granularity the locks define

`MemoryDB.HasOutpoint` (RLock) and `MemoryDB.AddOutpoint` (Lock) are each
atomic, but `ValidateMessage` performs them as two separate critical
sections with the (lock-free) ownership and signature checks in between.
A concurrent run of two `validateMessage` calls for the same outpoint is
modelled as an interleaving of their store accesses; the in-between
external checks are taken to succeed, as in the claim ("valid
signatures"). -/

/-- The store-access progress of one in-flight `ValidateMessage` call:
`pc = 0` before `HasOutpoint`, `pc = 1` between `HasOutpoint` and
`AddOutpoint`, `pc = 2` returned.  `admitted` records whether the call
returned success. -/
structure ThreadState where
  pc : Nat
  seen : Bool
  admitted : Bool
deriving DecidableEq

/-- Execute the next atomic store access of one thread validating
outpoint `o`. -/
def stepThread (o : Outpoint) (st : Store) (t : ThreadState) :
    Store × ThreadState :=
  if t.pc = 0 then
    (st, { t with pc := 1, seen := decide (o ∈ st) })
  else if t.pc = 1 then
    if t.seen then (st, { t with pc := 2, admitted := false })
    else ((if o ∈ st then st else o :: st), { t with pc := 2, admitted := true })
  else (st, t)

/-- Run two concurrent validations of outpoint `o` under a schedule:
`true` steps the first thread, `false` the second. -/
def runSchedule (o : Outpoint) : List Bool → Store × ThreadState × ThreadState →
    Store × ThreadState × ThreadState
  | [], s => s
  | b :: rest, (st, t1, t2) =>
    if b then
      let (st2, t1') := stepThread o st t1
      runSchedule o rest (st2, t1', t2)
    else
      let (st2, t2') := stepThread o st t2
      runSchedule o rest (st2, t1, t2')

/-- A thread that has not started yet. -/
def threadInit : ThreadState := ⟨0, false, false⟩

/-! ## Peer session (network/peer.go) -/

/-- Wire message type tags. -/
def MessageTypeInv : Nat := 1

def MessageTypeGetData : Nat := 2

def MessageTypeData : Nat := 3

/-- What one iteration of `Peer.readMessages` decides after the per-type
handler returns: keep reading, or `return` (which runs the deferred
`p.Disconnect()`). -/
inductive LoopOutcome where
  | continueLoop
  | disconnect
deriving DecidableEq

/-- The dispatch of `Peer.readMessages` on one received message: a known
tag whose handler returns nil continues the loop; a handler error or an
unknown tag makes the loop `return`, disconnecting the peer. -/
def readMessagesDispatch {ε : Type} (msgType : Nat)
    (handler : Except ε Unit) : LoopOutcome :=
  if msgType = MessageTypeInv ∨ msgType = MessageTypeGetData ∨
      msgType = MessageTypeData then
    match handler with
    | .ok _ => .continueLoop
    | .error _ => .disconnect
  else .disconnect

/-- The failure modes of `Peer.handleDataMessage` after the frame has been
read (io errors while reading the frame are not modelled: they are socket
conditions, and every one of them also returns an error). -/
inductive DataMsgError where
  | invalidPayloadLength (n : Nat)
  | deserializeFailed (e : DecodeError)
  | extractPubKeyFailed
  | invalidMessage (e : ValidationError)
deriving DecidableEq

/-- `Peer.handleDataMessage`, from the declared payload length on: bound
check, deserialize, extract the claimed key from the referenced UTXO
(`extractPubKey`, abstracted as an outcome), validate, then store and
broadcast (`storeMessageInDB` always returns nil, see below). -/
def handleDataMessage (payloadLength : Nat)
    (deser : Except DecodeError Message)
    (pubKey : Except Unit String)
    (validate : Except ValidationError Unit) : Except DataMsgError Unit :=
  if payloadLength > MaxPayloadSize then
    .error (.invalidPayloadLength payloadLength)
  else
    match deser with
    | .error e => .error (.deserializeFailed e)
    | .ok _ =>
      match pubKey with
      | .error _ => .error .extractPubKeyFailed
      | .ok _ =>
        match validate with
        | .error e => .error (.invalidMessage e)
        | .ok _ => .ok ()

/-! ## Network manager (network/config.go) -/

/-- `database.Outpoint`: a 32-byte txid plus a `uint32` output index. -/
structure DbOutpoint where
  txid : Bytes 32
  index : Nat
deriving DecidableEq

/-- The body `broadcastToOtherPeers` builds for one outpoint: a 3-byte
header (tag byte + `count = 1` as little-endian u16) followed by the
36-byte outpoint — note the header already carries the Inv tag. -/
def invMessageData (op : DbOutpoint) : List Nat :=
  let header := MessageTypeInv :: putUint16LE 1
  let payload := op.txid.val ++ putUint32LE op.index
  header ++ payload

/-- `Peer.SendMessage`: writes the type byte, then the data. -/
def sendMessageWire (msgType : Nat) (data : List Nat) : List Nat :=
  msgType :: data

/-- The bytes one receiving peer gets from a broadcast:
`SendMessage(MessageTypeInv, invMessageData op)`. -/
def broadcastInvWire (op : DbOutpoint) : List Nat :=
  sendMessageWire MessageTypeInv (invMessageData op)

/-- Modelled from the spec: the wire table of §6 says an Inv message is
exactly one tag byte 0x01, a 2-byte little-endian count, then
`count × Outpoint(36B)`.  Stated here for comparison with the bytes the
code emits. -/
def specInvWire (ops : List DbOutpoint) : List Nat :=
  MessageTypeInv :: putUint16LE ops.length ++
    (ops.map (fun op => op.txid.val ++ putUint32LE op.index)).flatten

/-- The peers `broadcastToOtherPeers` sends an Inv to: every peer in the
manager's set except `sourcePeer` (`if peer == sourcePeer { continue }`,
pointer identity). -/
def broadcastTargets {P : Type} [DecidableEq P] (peers : List P)
    (sourcePeer : P) : List P :=
  peers.filter (fun p => decide (p ≠ sourcePeer))

/-- The outcome of a Go call that may `panic`. -/
inductive GoResult (α : Type) where
  | ok (val : α)
  | panicked (msg : String)
deriving DecidableEq

/-- `MemoryDB.AddMessage`: `panic("unimplemented")`. -/
def memoryDBAddMessage (_outpoint : Outpoint) (_data : List Nat) :
    GoResult Unit :=
  .panicked "unimplemented"

/-- `MemoryDB.GetMessage`: `panic("unimplemented")`. -/
def memoryDBGetMessage (_outpoint : Outpoint) :
    GoResult (Option (List Nat)) :=
  .panicked "unimplemented"

/-- `Manager.getMessageFromDB`: the placeholder implementation logs and
returns `(nil, nil)` for every outpoint. -/
def getMessageFromDB (_outpoint : DbOutpoint) :
    Except Unit (Option (List Nat)) :=
  .ok none

/-- `Manager.storeMessageInDB`: the placeholder implementation logs and
returns nil. -/
def storeMessageInDB (_outpoint : DbOutpoint) (_msgData : List Nat) :
    Except Unit Unit :=
  .ok ()

/-- The `Data` reply `Peer.handleGetDataMessage` sends for a requested
outpoint: the cached bytes if the database lookup yields some, nothing if
it errors or yields nil. -/
def handleGetDataSend (op : DbOutpoint) : Option (List Nat) :=
  match getMessageFromDB op with
  | .error _ => none
  | .ok none => none
  | .ok (some msgData) => some msgData

/-! ## Blockchain watcher (blockchain/handler.go) -/

/-- The failure modes of `Handler.handleNewBlock`. -/
inductive BlockError where
  | getBlockHashFailed
  | getBlockFailed
  | extractOutpointsFailed
  | removeOutpointsFailed
deriving DecidableEq

/-- The per-height processing attempts of one polling tick: the loop
`for height := last+1; height <= blocks; height++` with each height's
success recorded (`handleNewBlock` errors are logged, nothing more). -/
def processRange (last blocks : Int)
    (handleNewBlock : Int → Except BlockError Unit) : List (Int × Bool) :=
  (List.range (blocks - last).toNat).map
    (fun i => (last + 1 + i, (handleNewBlock (last + 1 + i)).toBool))

/-- One `ticker.C` iteration of `Handler.processBlocks` (polling mode):
fetch the chain info; on RPC error keep `lastKnownHeight`; otherwise, if
the chain is ahead, attempt every height in the range and then set
`lastKnownHeight = info.Blocks` unconditionally.  Returns the new
`lastKnownHeight` and the attempt log. -/
def processTick (lastKnownHeight : Int) (info : Except Unit Int)
    (handleNewBlock : Int → Except BlockError Unit) :
    Int × List (Int × Bool) :=
  match info with
  | .error _ => (lastKnownHeight, [])
  | .ok blocks =>
    if blocks > lastKnownHeight then
      (blocks, processRange lastKnownHeight blocks handleNewBlock)
    else (lastKnownHeight, [])

/-! ## Concrete values used as witnesses and counterexamples -/

/-- An all-zero 36-byte outpoint. -/
def opZero : Outpoint := ⟨List.replicate 36 0, rfl⟩

/-- An all-zero 64-byte signature. -/
def sigZero : Signature := ⟨List.replicate 64 0, rfl⟩

/-- An all-zero 32-byte txid. -/
def txidZero : Bytes 32 := ⟨List.replicate 32 0, rfl⟩

/-- The `database.Outpoint` with zero txid and index 0. -/
def dbOpZero : DbOutpoint := ⟨txidZero, 0⟩

/-- A small well-formed message over `opZero`. -/
def msgZero : Message := ⟨opZero, sigZero, 3, [104, 105, 33]⟩

/-- A collaborator environment in which every external check passes. -/
def envAllOk : CollabEnv := ⟨false, true, .unspent ⟨5000, "5120"⟩, none⟩

/-- A collaborator environment in which the UTXO lookup returns nil. -/
def envUtxoGone : CollabEnv := ⟨false, true, .spentOrMissing, none⟩

/-- A 102-byte buffer whose length field declares a 1-byte payload that is
not present. -/
def bufDeclaresOne : List Nat := List.replicate 100 0 ++ [1, 0]

/-- A 102-byte buffer whose length field declares 65,435 bytes. -/
def bufDeclaresOversize : List Nat := List.replicate 100 0 ++ [155, 255]

/-! # Theorems -/

/-- Normal form of `message.Validator.ValidateMessage`: the branch
structure of the Go function, with both store operations evaluated. -/
theorem validateMessage_eq (env : CollabEnv) (st : Store) (msg : Message) :
    validateMessage env st msg =
      if env.ctxDone then (.error (.databaseError .contextCanceled), st)
      else if msg.outpoint ∈ st then (.error .alreadySeen, st)
      else
        match verifyUTXOOwnership env with
        | .error e => (.error (.utxoVerificationFailed e), st)
        | .ok _ =>
          match verifySignature env with
          | .error e => (.error (.signatureVerificationFailed e), st)
          | .ok _ => (.ok (), msg.outpoint :: st) := by
  by_cases hc : env.ctxDone <;>
    by_cases hm : msg.outpoint ∈ st <;>
    cases ho : verifyUTXOOwnership env <;>
    cases hsig : verifySignature env <;>
    simp [validateMessage, hasOutpoint, addOutpoint, hc, hm, ho, hsig]

/-- **C1** — For every message whose outpoint is already present in the
store, `ValidateMessage` rejects it as already seen and leaves the store
unchanged; on any rejection no outpoint is added; and the outpoint is
added to the store only after the ownership and signature checks have
succeeded (success adds exactly the message's outpoint). -/
theorem validateMessage_admission_order (env : CollabEnv) (st : Store)
    (msg : Message) :
    (env.ctxDone = false → msg.outpoint ∈ st →
      validateMessage env st msg = (.error .alreadySeen, st)) ∧
    (∀ e, (validateMessage env st msg).1 = .error e →
      (validateMessage env st msg).2 = st) ∧
    ((validateMessage env st msg).1 = .ok () →
      verifyUTXOOwnership env = .ok () ∧ verifySignature env = .ok () ∧
      msg.outpoint ∉ st ∧
      (validateMessage env st msg).2 = msg.outpoint :: st) ∧
    ((validateMessage env st msg).2 ≠ st →
      verifyUTXOOwnership env = .ok () ∧ verifySignature env = .ok () ∧
      (validateMessage env st msg).1 = .ok ()) := by
  rw [validateMessage_eq]
  by_cases hc : env.ctxDone <;>
    by_cases hm : msg.outpoint ∈ st <;>
    cases ho : verifyUTXOOwnership env <;>
    cases hsig : verifySignature env <;>
    simp [hc, hm, ho, hsig]

/-- Witness for C1: a replayed outpoint is rejected as already seen at a
concrete store, and a fresh outpoint is admitted only with both checks
passing. -/
theorem validateMessage_admission_order_witness :
    validateMessage envAllOk [opZero] msgZero
      = (.error .alreadySeen, [opZero]) ∧
    (verifyUTXOOwnership envAllOk = .ok () ∧
      verifySignature envAllOk = .ok () ∧ msgZero.outpoint ∉ ([] : Store) ∧
      (validateMessage envAllOk [] msgZero).2 = msgZero.outpoint :: []) :=
  ⟨(validateMessage_admission_order envAllOk [opZero] msgZero).1 rfl
      (by decide),
    (validateMessage_admission_order envAllOk [] msgZero).2.2.1 rfl⟩

/-- **C2** — When the UTXO lookup reports the referenced outpoint absent
or already spent (`GetTxOut` returning nil), `ValidateMessage` rejects the
message and the store is unchanged, so the message is never admitted. -/
theorem validateMessage_ownership_gate (env : CollabEnv) (st : Store)
    (msg : Message) (h : env.getTxOut = .spentOrMissing) :
    (validateMessage env st msg).1 ≠ .ok () ∧
    (validateMessage env st msg).2 = st := by
  have ho : ∀ u, verifyUTXOOwnership env ≠ .ok u := by
    intro u
    rw [verifyUTXOOwnership, h]
    cases env.parseTxidOk <;> simp
  rw [validateMessage_eq]
  by_cases hc : env.ctxDone <;> by_cases hm : msg.outpoint ∈ st <;>
    cases how : verifyUTXOOwnership env <;>
    simp_all [hc, hm]

/-- Witness for C2: a spent/absent UTXO is rejected at a concrete input. -/
theorem validateMessage_ownership_gate_witness :
    (validateMessage envUtxoGone [] msgZero).1 ≠ .ok () ∧
    (validateMessage envUtxoGone [] msgZero).2 = [] :=
  validateMessage_ownership_gate envUtxoGone [] msgZero rfl

/-- **C3, counterexample** — two concurrent `validate` calls for the same
outpoint, interleaved as has₁, has₂, add₁, add₂ (each store access atomic,
exactly as the `MemoryDB` locks make them), both return success:
"exactly one succeeds" fails on the code because the has-check and the add
are separate critical sections. -/
theorem concurrent_admission_both_succeed :
    ((runSchedule opZero [true, false, true, false]
      ([], threadInit, threadInit)).2.1.admitted = true) ∧
    ((runSchedule opZero [true, false, true, false]
      ([], threadInit, threadInit)).2.2.admitted = true) := by
  constructor <;> rfl

/-- **C3, amended** — under serialized execution the single-admission
invariant does hold: if one `ValidateMessage` call admits an outpoint,
a later call carrying the same outpoint is rejected as already seen. -/
theorem validateMessage_serial_second_rejected (env1 env2 : CollabEnv)
    (st : Store) (m1 m2 : Message) (hop : m2.outpoint = m1.outpoint)
    (h1 : (validateMessage env1 st m1).1 = .ok ())
    (h2 : env2.ctxDone = false) :
    (validateMessage env2 (validateMessage env1 st m1).2 m2).1
      = .error .alreadySeen := by
  by_cases hc : env1.ctxDone
  · rw [validateMessage_eq] at h1
    simp [hc] at h1
  by_cases hm : m1.outpoint ∈ st
  · rw [validateMessage_eq] at h1
    simp [hc, hm] at h1
  cases ho : verifyUTXOOwnership env1 with
  | error e =>
    rw [validateMessage_eq] at h1
    simp [hc, hm, ho] at h1
  | ok u =>
    cases hsig : verifySignature env1 with
    | error e =>
      rw [validateMessage_eq] at h1
      simp [hc, hm, ho, hsig] at h1
    | ok v =>
      have hstore : (validateMessage env1 st m1).2 = m1.outpoint :: st := by
        rw [validateMessage_eq]
        simp [hc, hm, ho, hsig]
      rw [hstore, validateMessage_eq]
      simp [h2, hop]

/-- Witness for the amended C3: the second of two serial validations of
the same outpoint is rejected, at a concrete input. -/
theorem validateMessage_serial_second_rejected_witness :
    (validateMessage envAllOk (validateMessage envAllOk [] msgZero).2
      msgZero).1 = .error .alreadySeen :=
  validateMessage_serial_second_rejected envAllOk envAllOk [] msgZero
    msgZero rfl rfl rfl

/-- **C4** — For every valid message `m` (payload length at most 65,434
bytes and length field equal to the payload length), decoding the encoding
of `m` returns a message equal to `m`: `Deserialize (Serialize m) = ok m`. -/
theorem deserialize_serialize_roundtrip (m : Message)
    (hlen : m.length = m.payload.length)
    (hmax : m.payload.length ≤ MaxPayloadSize) :
    Deserialize (Serialize m) = .ok m := by
  obtain ⟨⟨a, ha⟩, ⟨s, hs⟩, n, p⟩ := m
  simp only [OutpointSize] at ha
  simp only [SignatureSize] at hs
  simp only at hlen hmax
  simp only [MaxPayloadSize] at hmax
  have hle : (putUint16LE n).length = 2 := rfl
  have hser : Serialize ⟨⟨a, ha⟩, ⟨s, hs⟩, n, p⟩
      = ((a ++ s) ++ putUint16LE n) ++ p := by
    simp [Serialize, List.append_assoc]
  have hlenas : (a ++ s).length = 100 := by
    simp [ha, hs]
  have hlenhead : ((a ++ s) ++ putUint16LE n).length = 102 := by
    rw [List.length_append, hlenas, hle]
  have hlend : (((a ++ s) ++ putUint16LE n) ++ p).length = 102 + p.length := by
    rw [List.length_append, hlenhead]
  have h100 : (((a ++ s) ++ putUint16LE n) ++ p).getD 100 0 = n % 256 := by
    rw [List.getD_append _ _ _ _ (by omega)]
    rw [List.getD_append_right _ _ _ _ (by omega)]
    rw [hlenas]
    rfl
  have h101 : (((a ++ s) ++ putUint16LE n) ++ p).getD 101 0
      = n / 256 % 256 := by
    rw [List.getD_append _ _ _ _ (by omega)]
    rw [List.getD_append_right _ _ _ _ (by omega)]
    rw [hlenas]
    rfl
  have hdecl : declaredLength (((a ++ s) ++ putUint16LE n) ++ p) = n := by
    rw [declaredLength, h100, h101, uint16LE]
    omega
  rw [hser, Deserialize]
  rw [dif_neg (by
    rw [hlend]
    simp [HeaderSize, OutpointSize, SignatureSize, LengthSize])]
  simp only [hdecl]
  rw [if_neg (by simp only [MaxPayloadSize]; omega)]
  rw [if_neg (by
    rw [hlend]
    simp only [HeaderSize, OutpointSize, SignatureSize, LengthSize]
    omega)]
  simp only [Except.ok.injEq, Message.mk.injEq, Subtype.mk.injEq]
  refine ⟨?_, ?_, ?_, ?_⟩
  case refine_3 => trivial
  · rw [show ((a ++ s) ++ putUint16LE n) ++ p
        = a ++ (s ++ (putUint16LE n ++ p)) by simp [List.append_assoc]]
    exact List.take_left' ha
  · rw [show ((a ++ s) ++ putUint16LE n) ++ p
        = a ++ (s ++ (putUint16LE n ++ p)) by simp [List.append_assoc]]
    rw [List.drop_left' ha]
    exact List.take_left' hs
  · rw [List.drop_left' hlenhead]
    rw [hlen]
    exact List.take_of_length_le (Nat.le_refl _)

/-- Witness for C4: the round-trip evaluated on a concrete message. -/
theorem deserialize_serialize_roundtrip_witness :
    Deserialize (Serialize msgZero) = .ok msgZero :=
  deserialize_serialize_roundtrip msgZero (by decide) (by decide)

/-- **C5, counterexample** — a 102-byte buffer declaring a 1-byte payload
is rejected with the distinct "message data too short" error, not with
`ErrMessageTooLarge` as the claim states. -/
theorem deserialize_short_buffer_error_not_tooLarge :
    Deserialize bufDeclaresOne = .error (.dataTooShort 103 102) ∧
      DecodeError.dataTooShort 103 102 ≠ DecodeError.messageTooLarge := by
  constructor
  · rfl
  · decide

/-- **C5, amended** — `Deserialize` returns `ErrInvalidHeader` for buffers
shorter than 102 bytes, `ErrMessageTooLarge` when the declared length
exceeds 65,434, and the distinct "message data too short" error (not
`ErrMessageTooLarge`) when the buffer is shorter than 102 bytes plus the
declared length; `NewMessage` rejects every payload longer than 65,434
bytes with `ErrMessageTooLarge`. -/
theorem deserialize_error_cases :
    (∀ data : List Nat, data.length < HeaderSize →
      Deserialize data = .error .invalidHeader) ∧
    (∀ data : List Nat, HeaderSize ≤ data.length →
      MaxPayloadSize < declaredLength data →
      Deserialize data = .error .messageTooLarge) ∧
    (∀ data : List Nat, HeaderSize ≤ data.length →
      declaredLength data ≤ MaxPayloadSize →
      data.length < HeaderSize + declaredLength data →
      Deserialize data
        = .error (.dataTooShort (HeaderSize + declaredLength data)
            data.length)) ∧
    (∀ (op : Outpoint) (sig : Signature) (payload : List Nat),
      MaxPayloadSize < payload.length →
      NewMessage op sig payload = .error .messageTooLarge) := by
  refine ⟨?_, ?_, ?_, ?_⟩
  · intro data h
    rw [Deserialize, dif_pos h]
  · intro data h1 h2
    rw [Deserialize, dif_neg (by omega)]
    simp only
    rw [if_pos h2]
  · intro data h1 h2 h3
    rw [Deserialize, dif_neg (by omega)]
    simp only
    rw [if_neg (by omega), if_pos h3]
  · intro op sig payload h
    rw [NewMessage, if_pos h]

/-- Witness for the amended C5: the four cases at concrete inputs. -/
theorem deserialize_error_cases_witness :
    Deserialize [0, 0, 0] = .error .invalidHeader ∧
    Deserialize bufDeclaresOversize = .error .messageTooLarge ∧
    Deserialize bufDeclaresOne = .error (.dataTooShort 103 102) ∧
    NewMessage opZero sigZero (List.replicate 65435 7)
      = .error .messageTooLarge := by
  refine ⟨?_, ?_, ?_, ?_⟩
  · exact deserialize_error_cases.1 [0, 0, 0] (by decide)
  · exact deserialize_error_cases.2.1 bufDeclaresOversize (by decide)
      (by decide)
  · have h := deserialize_error_cases.2.2.1 bufDeclaresOne (by decide)
      (by decide) (by decide)
    simpa using h
  · exact deserialize_error_cases.2.2.2 opZero sigZero
      (List.replicate 65435 7)
      (by simp only [List.length_replicate, MaxPayloadSize]; omega)

/-- **C6, counterexample** — a Data message that frames and decodes
correctly but is rejected by the validator (here: already seen) makes
`handleDataMessage` return an error, and `readMessages` then returns,
disconnecting the peer: the connection does not stay open. -/
theorem data_rejection_disconnects :
    readMessagesDispatch MessageTypeData
      (handleDataMessage 3 (.ok msgZero) (.ok "02")
        (.error .alreadySeen)) = .disconnect ∧
    LoopOutcome.disconnect ≠ LoopOutcome.continueLoop := by
  constructor
  · rfl
  · decide

/-- **C6, amended** — every per-message handler error, admission
rejections included, makes the `readMessages` loop return and the peer
disconnect; the connection stays open only when the handler returns nil
(and `handleDataMessage` turns every validator rejection into an error). -/
theorem handler_error_disconnects {ε : Type} (msgType : Nat)
    (handler : Except ε Unit) :
    (∀ e, handler = .error e →
      readMessagesDispatch msgType handler = .disconnect) ∧
    (handler = .ok () →
      (msgType = MessageTypeInv ∨ msgType = MessageTypeGetData ∨
        msgType = MessageTypeData) →
      readMessagesDispatch msgType handler = .continueLoop) ∧
    (∀ (plen : Nat) (msg : Message) (pk : String) (e : ValidationError),
      plen ≤ MaxPayloadSize →
      handleDataMessage plen (.ok msg) (.ok pk) (.error e)
        = .error (.invalidMessage e)) := by
  refine ⟨?_, ?_, ?_⟩
  · intro e he
    subst he
    simp [readMessagesDispatch]
  · intro h1 h2
    subst h1
    rw [readMessagesDispatch, if_pos h2]
  · intro plen msg pk e hp
    rw [handleDataMessage, if_neg (by omega)]

/-- Witness for the amended C6: the three cases at concrete inputs. -/
theorem handler_error_disconnects_witness :
    readMessagesDispatch MessageTypeData
      (Except.error ValidationError.alreadySeen : Except ValidationError Unit)
      = .disconnect ∧
    readMessagesDispatch MessageTypeData
      (Except.ok () : Except ValidationError Unit) = .continueLoop ∧
    handleDataMessage 3 (.ok msgZero) (.ok "02") (.error .alreadySeen)
      = .error (.invalidMessage .alreadySeen) :=
  ⟨(handler_error_disconnects MessageTypeData _).1 .alreadySeen rfl,
    (handler_error_disconnects MessageTypeData _).2.1 rfl
      (by right; right; rfl),
    (handler_error_disconnects MessageTypeData
        (Except.ok () : Except ValidationError Unit)).2.2 3 msgZero "02"
      .alreadySeen (by decide)⟩

/-- **C7, counterexample** — with `lastKnownHeight = 0` and chain height 1,
a tick in which processing height 1 fails still sets `lastKnownHeight` to
1, and the next tick does not retry height 1: the failed height is
skipped, not retried. -/
theorem watcher_skips_failed_height :
    processTick 0 (.ok 1) (fun _ => .error .getBlockHashFailed)
      = (1, [(1, false)]) ∧
    processTick 1 (.ok 1) (fun _ => .error .getBlockHashFailed)
      = (1, []) := by
  constructor
  · decide
  · decide

/-- **C7, amended** — whenever the chain is ahead, the tick attempts every
height in `(lastKnownHeight, currentHeight]` but sets `lastKnownHeight` to
`currentHeight` unconditionally afterwards, whether or not any height
errored (errors are only logged). -/
theorem watcher_updates_height_regardless (last blocks : Int)
    (handleNewBlock : Int → Except BlockError Unit) (h : last < blocks) :
    (processTick last (.ok blocks) handleNewBlock).1 = blocks ∧
    (processTick last (.ok blocks) handleNewBlock).2
      = processRange last blocks handleNewBlock := by
  simp only [processTick]
  rw [if_pos h]
  exact ⟨rfl, rfl⟩

/-- Witness for the amended C7: a concrete tick with an always-failing
block fetch still advances the height. -/
theorem watcher_updates_height_regardless_witness :
    (processTick 0 (.ok 2) (fun _ => .error .getBlockFailed)).1 = 2 ∧
    (processTick 0 (.ok 2) (fun _ => .error .getBlockFailed)).2
      = processRange 0 2 (fun _ => .error .getBlockFailed) :=
  watcher_updates_height_regardless 0 2 _ (by decide)

/-- **C8** — the bytes a receiving peer gets from a broadcast carry the
Inv tag byte twice: once written by `SendMessage` and once already placed
at the front of the data by `broadcastToOtherPeers`; they are not the
single-tag Inv frame of the wire table (which the repository's own
`handleInvMessage` parser expects after consuming one tag byte). -/
theorem broadcastInv_tag_duplicated :
    broadcastInvWire dbOpZero = MessageTypeInv :: specInvWire [dbOpZero] ∧
    broadcastInvWire dbOpZero ≠ specInvWire [dbOpZero] := by
  constructor
  · rfl
  · decide

/-- **C9** — `broadcastToOtherPeers` sends the Inv announcement to exactly
the peers of the manager's set that are not the source peer; in particular
the source peer never receives it. -/
theorem broadcast_no_echo {P : Type} [DecidableEq P] (peers : List P)
    (sourcePeer p : P) :
    (p ∈ broadcastTargets peers sourcePeer ↔
      p ∈ peers ∧ p ≠ sourcePeer) ∧
    sourcePeer ∉ broadcastTargets peers sourcePeer := by
  constructor
  · simp [broadcastTargets, List.mem_filter]
  · simp [broadcastTargets, List.mem_filter]

/-- Witness for C9 at a concrete peer set. -/
theorem broadcast_no_echo_witness :
    (2 ∈ broadcastTargets [1, 2, 3] 1 ↔ 2 ∈ [1, 2, 3] ∧ 2 ≠ 1) ∧
    1 ∉ broadcastTargets [1, 2, 3] 1 :=
  broadcast_no_echo [1, 2, 3] 1 2

/-- **C10** — the gossip replay cache is unimplemented: `MemoryDB`'s
`AddMessage` and `GetMessage` panic unconditionally,
`Manager.getMessageFromDB` returns `(nil, nil)` for every outpoint, and
consequently `handleGetDataMessage` never answers a GetData request with a
Data message. -/
theorem getData_never_answered (op : Outpoint) (dop : DbOutpoint)
    (data : List Nat) :
    memoryDBAddMessage op data = .panicked "unimplemented" ∧
    memoryDBGetMessage op = .panicked "unimplemented" ∧
    getMessageFromDB dop = .ok none ∧
    handleGetDataSend dop = none :=
  ⟨rfl, rfl, rfl, rfl⟩

end UtxoChat
